import Mathlib

/-!
Shallow embedding of the noter CRUD surface.

The repository consists of four AWS Lambda record handlers
(CreateNote, NoteById, UpdateNote, DeleteNote, plus a list handler),
a client API adapter, and an in-memory mock fallback store.  We embed:

* the DynamoDB table `noter_db` as a list of notes addressed by `id`
  (DynamoDB key semantics: lookups find the item with the matching key);
* ISO-8601 timestamps as natural numbers (ISO strings of a fixed format
  compare lexicographically exactly as the instants they denote);
* `uuidv4()` and `new Date()` as explicit oracle parameters threaded into
  the embedded functions, the way the runtime supplies them;
* JavaScript exceptions as `Except String` carrying the exact message the
  source throws, since the handlers dispatch on `err.message`;
* a parsed JSON request body as a record of the optional fields a client
  can send (`title`, `content`, and client-supplied `id`/timestamps plus
  arbitrary further fields), of which the handlers destructure only
  `title` and `content`;
* response bodies symbolically: `JSON.stringify` of a value is never the
  empty string, so a response body is empty exactly when the source used
  the literal empty string (the CORS preflight branch).
-/

/-- A stored note: the exact five fields built by `dbService.createNote`
in `CreateNote/src/index.js`. -/
structure Note where
  id : String
  title : String
  content : String
  createdAt : Nat
  updatedAt : Nat
deriving Repr, DecidableEq

/-- The `noter_db` DynamoDB table, addressed by the key `id`. -/
abbrev Store := List Note

/-- DynamoDB `GetCommand` on key `i`: the item whose `id` equals `i`. -/
def getById (s : Store) (i : String) : Option Note :=
  s.find? (fun n => n.id == i)

/-- Replace the (first, and with unique keys the only) item with id `i`. -/
def replaceFirst (s : Store) (i : String) (upd : Note) : Store :=
  match s with
  | [] => []
  | n :: rest => if n.id == i then upd :: rest else n :: replaceFirst rest i upd

/-- DynamoDB `PutCommand`: overwrite the item with the same key, or add it. -/
def putNote (s : Store) (n : Note) : Store :=
  if (getById s n.id).isSome then replaceFirst s n.id n else s ++ [n]

/-- DynamoDB `DeleteCommand` on key `i`. -/
def removeNote (s : Store) (i : String) : Store :=
  s.filter (fun n => !(n.id == i))

/-- A parsed JSON request body.  The handlers destructure only `title` and
`content`; the other components model a client also sending `id`,
`createdAt`, `updatedAt`, or arbitrary unknown fields. -/
structure ReqBody where
  title : Option String
  content : Option String
  idField : Option String
  createdAtField : Option Nat
  updatedAtField : Option Nat
  extra : List (String × String)
deriving Repr, DecidableEq

/-- JavaScript truthiness of an optional string field: `!x` is true when
the field is absent (`undefined`) or the empty string. -/
def truthy : Option String → Bool
  | none => false
  | some s => !s.isEmpty

/-- `dbService.createNote` of `CreateNote/src/index.js`: destructures
`{title, content}`, throws `Title is required` on a falsy title, otherwise
builds the new note with a generated id, `content || ''`, and one
timestamp used for both `createdAt` and `updatedAt`, and puts it. -/
def dbCreateNote (noteData : ReqBody) (freshId : String) (now : Nat)
    (store : Store) : Except String (Note × Store) :=
  if !(truthy noteData.title) then
    .error "Title is required"
  else
    let newNote : Note :=
      { id := freshId
        title := noteData.title.getD ""
        content := noteData.content.getD ""
        createdAt := now
        updatedAt := now }
    .ok (newNote, putNote store newNote)

/-- `dbService.getNoteById` of `NoteById/src/index.js`: throws on a falsy
id, otherwise returns `data.Item || null`. -/
def dbGetNoteById (noteId : String) (store : Store) :
    Except String (Option Note) :=
  if noteId.isEmpty then .error "Note ID is required"
  else .ok (getById store noteId)

/-- `dbService.updateNote` of the UpdateNote lambda: throws on a falsy id;
checks existence first and throws `Note not found`; then validates that
a truthy `title` or a defined `content` was supplied; then issues an
`UpdateCommand` that sets `updatedAt` always, `title` when defined, and
`content` when defined, returning `ALL_NEW` attributes. -/
def dbUpdateNote (noteId : String) (updateData : ReqBody) (now : Nat)
    (store : Store) : Except String (Note × Store) :=
  if noteId.isEmpty then .error "Note ID is required"
  else
    match getById store noteId with
    | none => .error "Note not found"
    | some old =>
      if !(truthy updateData.title) && updateData.content == none then
        .error "At least one field (title or content) must be provided for update"
      else
        let upd : Note :=
          { id := old.id
            title := match updateData.title with
              | some t => t
              | none => old.title
            content := match updateData.content with
              | some c => c
              | none => old.content
            createdAt := old.createdAt
            updatedAt := now }
        .ok (upd, replaceFirst store noteId upd)

/-- `dbService.deleteNote` of `DeleteNote/src/index.js`: throws on a falsy
id; checks existence first and throws `Note not found`; then deletes. -/
def dbDeleteNote (noteId : String) (store : Store) : Except String Store :=
  if noteId.isEmpty then .error "Note ID is required"
  else if (getById store noteId).isSome then .ok (removeNote store noteId)
  else .error "Note not found"

/-- A response body.  `JSON.stringify` of any value is a non-empty string,
so the body is the empty string exactly in the `empty` case (the literal
empty string of the CORS branch). -/
inductive RespBody where
  | empty
  | note (n : Note)
  | noteList (ns : List Note)
  | msgObj (m : String)
  | errObj (m : String)
deriving Repr, DecidableEq

/-- An API Gateway response (CORS headers elided: every branch sets the
same permissive headers). -/
structure ApiResponse where
  statusCode : Nat
  body : RespBody
deriving Repr, DecidableEq

/-- `responseHelper.success`. -/
def successResp (b : RespBody) (code : Nat) : ApiResponse :=
  { statusCode := code, body := b }

/-- `responseHelper.error`: body `{ error: message }`. -/
def errorResp (m : String) (code : Nat) : ApiResponse :=
  { statusCode := code, body := .errObj m }

/-- `responseHelper.cors`: status 200 and the literal empty body. -/
def corsResp : ApiResponse :=
  { statusCode := 200, body := .empty }

/-- The raw request body after the handler's `JSON.parse` attempt:
either unparsable or a parsed `ReqBody`. -/
inductive RawBody where
  | malformed
  | wellFormed (b : ReqBody)
deriving Repr, DecidableEq

/-- An API Gateway event as the handlers consume it.  `pathId` is
`event.pathParameters && event.pathParameters.id` (`none` when the
parameters object or the id is missing); `body` is `none` when
`event.body` is missing or the empty string. -/
structure ApiEvent where
  httpMethod : String
  pathId : Option String
  body : Option RawBody
deriving Repr, DecidableEq

/-- The CreateNote lambda handler: CORS preflight, body presence check,
JSON parse, then `dbService.createNote`, mapping `Title is required` to
400 and any other failure to 500; success is 201 with the new note. -/
def createHandler (e : ApiEvent) (freshId : String) (now : Nat)
    (store : Store) : ApiResponse × Store :=
  if e.httpMethod == "OPTIONS" then (corsResp, store)
  else
    match e.body with
    | none => (errorResp "Request body is missing" 400, store)
    | some .malformed => (errorResp "Invalid JSON in request body" 400, store)
    | some (.wellFormed b) =>
      match dbCreateNote b freshId now store with
      | .ok (n, store2) => (successResp (.note n) 201, store2)
      | .error msg =>
        if msg == "Title is required" then (errorResp msg 400, store)
        else (errorResp msg 500, store)

/-- The NoteById lambda handler: CORS preflight, path-parameter check,
then `dbService.getNoteById`; a null item yields 404, otherwise 200. -/
def getByIdHandler (e : ApiEvent) (store : Store) : ApiResponse :=
  if e.httpMethod == "OPTIONS" then corsResp
  else
    match e.pathId with
    | none => errorResp "Note ID is required" 400
    | some noteId =>
      if noteId.isEmpty then errorResp "Note ID is required" 400
      else
        match dbGetNoteById noteId store with
        | .ok none => errorResp "Note not found" 404
        | .ok (some n) => successResp (.note n) 200
        | .error msg =>
          if msg == "Note ID is required" then errorResp msg 400
          else errorResp msg 500

/-- The UpdateNote lambda handler: CORS preflight, path-parameter check,
body presence check, JSON parse, then `dbService.updateNote`, mapping its
thrown messages to 400 / 404 / 400 and anything else to 500. -/
def updateHandler (e : ApiEvent) (now : Nat) (store : Store) :
    ApiResponse × Store :=
  if e.httpMethod == "OPTIONS" then (corsResp, store)
  else
    match e.pathId with
    | none => (errorResp "Note ID is required" 400, store)
    | some noteId =>
      if noteId.isEmpty then (errorResp "Note ID is required" 400, store)
      else
        match e.body with
        | none => (errorResp "Request body is missing" 400, store)
        | some .malformed =>
          (errorResp "Invalid JSON in request body" 400, store)
        | some (.wellFormed b) =>
          match dbUpdateNote noteId b now store with
          | .ok (n, store2) => (successResp (.note n) 200, store2)
          | .error msg =>
            if msg == "Note ID is required" then (errorResp msg 400, store)
            else if msg == "Note not found" then (errorResp msg 404, store)
            else if msg == "At least one field (title or content) must be provided for update" then
              (errorResp msg 400, store)
            else (errorResp msg 500, store)

/-- The DeleteNote lambda handler: CORS preflight, path-parameter check,
then `dbService.deleteNote`; on success it returns
`responseHelper.success({message: 'Note deleted successfully'}, 204)`. -/
def deleteHandler (e : ApiEvent) (store : Store) : ApiResponse × Store :=
  if e.httpMethod == "OPTIONS" then (corsResp, store)
  else
    match e.pathId with
    | none => (errorResp "Note ID is required" 400, store)
    | some noteId =>
      if noteId.isEmpty then (errorResp "Note ID is required" 400, store)
      else
        match dbDeleteNote noteId store with
        | .ok store2 =>
          (successResp (.msgObj "Note deleted successfully") 204, store2)
        | .error msg =>
          if msg == "Note ID is required" then (errorResp msg 400, store)
          else if msg == "Note not found" then (errorResp msg 404, store)
          else (errorResp msg 500, store)

/-- Event for `GET /notes/:id`. -/
def getEvent (i : String) : ApiEvent :=
  { httpMethod := "GET", pathId := some i, body := none }

/-- Event for `PUT /notes/:id` with a present body. -/
def updateEvent (i : String) (b : RawBody) : ApiEvent :=
  { httpMethod := "PUT", pathId := some i, body := some b }

/-- Event for `DELETE /notes/:id`. -/
def deleteEvent (i : String) : ApiEvent :=
  { httpMethod := "DELETE", pathId := some i, body := none }

/-- Event for `POST /notes`. -/
def createEvent (b : Option RawBody) : ApiEvent :=
  { httpMethod := "POST", pathId := none, body := b }

/-- A request body carrying only the given title and content fields. -/
def mkBody (t c : Option String) : ReqBody :=
  { title := t, content := c, idField := none, createdAtField := none
    updatedAtField := none, extra := [] }

/-!
The client-side mock fallback store of `src/services/api.ts` /
`noteService.ts`.  `mockNotesData` is a module-level list seeded with two
notes whose timestamps are taken at module load; the seed instant is a
parameter here.
-/

/-- The seeded `mockNotesData` array, timestamps taken at load time `t`. -/
def initialMockNotes (t : Nat) : List Note :=
  [ { id := "1"
      title := "Welcome to Noter"
      content := "This is your first note! You can edit or delete this note, or create new ones."
      createdAt := t
      updatedAt := t }
  , { id := "2"
      title := "How to use Noter"
      content := "Create, edit, and delete notes easily. Your notes will be stored in the cloud and accessible from anywhere."
      createdAt := t
      updatedAt := t } ]

/-- `mockNoteById`: find by id, reject with `Note not found` when absent. -/
def mockNoteById (data : List Note) (i : String) : Except String Note :=
  match data.find? (fun n => n.id == i) with
  | none => .error "Note not found"
  | some n => .ok n

/-- `mockCreateNote`: spreads the input over a generated id and stamps
both timestamps; it performs no validation and always resolves. -/
def mockCreateNote (data : List Note) (title content : Option String)
    (newId : String) (now : Nat) : Except String (Note × List Note) :=
  let newNote : Note :=
    { id := newId
      title := title.getD ""
      content := content.getD ""
      createdAt := now
      updatedAt := now }
  .ok (newNote, data ++ [newNote])

/-- `mockUpdateNote`: rejects with `Note not found` when the id is absent;
otherwise spreads the partial body over the stored note (every supplied
field overrides, `updatedAt` is then overwritten with now) and stores the
merged note at the found index. -/
def mockUpdateNote (data : List Note) (i : String) (noteData : ReqBody)
    (now : Nat) : Except String (Note × List Note) :=
  match data.find? (fun n => n.id == i) with
  | none => .error "Note not found"
  | some old =>
    let upd : Note :=
      { id := noteData.idField.getD old.id
        title := noteData.title.getD old.title
        content := noteData.content.getD old.content
        createdAt := noteData.createdAtField.getD old.createdAt
        updatedAt := now }
    .ok (upd, replaceFirst data i upd)

/-- `mockDeleteNote`: filters the id out and always resolves, with no
existence check. -/
def mockDeleteNote (data : List Note) (i : String) :
    Except String (List Note) :=
  .ok (data.filter (fun n => !(n.id == i)))

/-- `noteService.getNote` of `src/services/noteService.ts`: returns the
remote response when the request resolves; when it rejects (axios throws
on any non-2xx status, including 404) and `NODE_ENV` is unset or
`development`, falls back to `mockNoteById`; otherwise rethrows. -/
def adapterGetNote (remote : Except String Note) (devMode : Bool)
    (mockData : List Note) (i : String) : Except String Note :=
  match remote with
  | .ok n => .ok n
  | .error e => if devMode then mockNoteById mockData i else .error e

/-- A concrete stored note used by witnesses and counterexamples. -/
def testNote : Note :=
  { id := "1", title := "t", content := "c", createdAt := 0, updatedAt := 0 }

/-!  Theorems  -/

/-- C1: for every id not present in the record store, the id-addressed
operations each fail with NotFound (HTTP 404): the get handler returns 404
when the store lookup yields no item, and the update and delete handlers
return 404 when their existence pre-check finds no note for the id. -/
theorem c1_absent_id_yields_notFound (i : String) (hne : i.isEmpty = false)
    (store : Store) (habs : getById store i = none)
    (b : ReqBody) (now : Nat) :
    getByIdHandler (getEvent i) store = errorResp "Note not found" 404 ∧
    (updateHandler (updateEvent i (.wellFormed b)) now store).1
      = errorResp "Note not found" 404 ∧
    (deleteHandler (deleteEvent i) store).1
      = errorResp "Note not found" 404 := by
  refine ⟨?_, ?_, ?_⟩ <;>
    simp [getByIdHandler, updateHandler, deleteHandler, getEvent, updateEvent,
      deleteEvent, dbGetNoteById, dbUpdateNote, dbDeleteNote, hne, habs]

/-- Witness for C1 at the absent id `zzz` over the empty store. -/
theorem c1_absent_id_yields_notFound_witness :
    ("zzz" : String).isEmpty = false ∧ getById [] "zzz" = none ∧
    (getByIdHandler (getEvent "zzz") [] = errorResp "Note not found" 404 ∧
     (updateHandler (updateEvent "zzz" (.wellFormed (mkBody none none))) 5 []).1
       = errorResp "Note not found" 404 ∧
     (deleteHandler (deleteEvent "zzz") []).1
       = errorResp "Note not found" 404) :=
  ⟨by decide, rfl,
   c1_absent_id_yields_notFound "zzz" (by decide) [] rfl (mkBody none none) 5⟩

/-- C2: every create request with a well-formed JSON body whose title is
absent or empty fails with 400 and leaves the store unwritten; in
particular both bodies `{title: ""}` and `{}` are rejected. -/
theorem c2_create_falsy_title_rejected (b : ReqBody)
    (ht : truthy b.title = false) (freshId : String) (now : Nat)
    (store : Store) :
    createHandler (createEvent (some (.wellFormed b))) freshId now store
      = (errorResp "Title is required" 400, store) := by
  simp [createHandler, createEvent, dbCreateNote, ht]

/-- Witness for C2 at both bodies `{title: ""}` and `{}`. -/
theorem c2_create_falsy_title_rejected_witness :
    truthy (mkBody (some "") none).title = false ∧
    truthy (mkBody none none).title = false ∧
    createHandler (createEvent (some (.wellFormed (mkBody (some "") none))))
        "f" 3 [] = (errorResp "Title is required" 400, []) ∧
    createHandler (createEvent (some (.wellFormed (mkBody none none))))
        "f" 3 [] = (errorResp "Title is required" 400, []) :=
  ⟨by decide, by decide,
   c2_create_falsy_title_rejected (mkBody (some "") none) (by decide) "f" 3 [],
   c2_create_falsy_title_rejected (mkBody none none) (by decide) "f" 3 []⟩

/-- C3: every create request with a non-empty title succeeds with 201 and
returns a note whose id is the freshly generated one (distinct from the id
of every previously stored note), whose content is the supplied content or
the empty string when omitted, and whose createdAt equals its updatedAt. -/
theorem c3_create_success (b : ReqBody) (t : String) (htitle : b.title = some t)
    (hnz : t.isEmpty = false) (freshId : String) (now : Nat) (store : Store)
    (hfresh : getById store freshId = none) :
    ∃ nNew : Note,
      createHandler (createEvent (some (.wellFormed b))) freshId now store
        = (successResp (.note nNew) 201, store ++ [nNew]) ∧
      nNew.id = freshId ∧ (∀ m ∈ store, m.id ≠ nNew.id) ∧
      nNew.title = t ∧ nNew.content = b.content.getD "" ∧
      nNew.createdAt = nNew.updatedAt := by
  refine ⟨{ id := freshId, title := t, content := b.content.getD ""
            createdAt := now, updatedAt := now }, ?_, rfl, ?_, rfl, rfl, rfl⟩
  · simp [createHandler, createEvent, dbCreateNote, putNote, truthy, htitle,
      hnz, hfresh, successResp]
  · intro m hm
    have h := List.find?_eq_none.mp hfresh m hm
    simpa using h

/-- Witness for C3 at the body `{title: "hello"}` over the empty store. -/
theorem c3_create_success_witness :
    (mkBody (some "hello") none).title = some "hello" ∧
    ("hello" : String).isEmpty = false ∧ getById [] "f1" = none ∧
    (∃ nNew : Note,
      createHandler (createEvent (some (.wellFormed (mkBody (some "hello") none))))
          "f1" 7 [] = (successResp (.note nNew) 201, [] ++ [nNew]) ∧
      nNew.id = "f1" ∧ (∀ m ∈ ([] : Store), m.id ≠ nNew.id) ∧
      nNew.title = "hello" ∧
      nNew.content = (mkBody (some "hello") none).content.getD "" ∧
      nNew.createdAt = nNew.updatedAt) :=
  ⟨rfl, by decide, rfl,
   c3_create_success (mkBody (some "hello") none) "hello" rfl (by decide)
     "f1" 7 [] rfl⟩

/-- C4: a successful content-only update of an existing note returns a
note with unchanged title, id and createdAt, content equal to the supplied
string, and an updatedAt strictly greater than the prior updatedAt when
the update instant is later than the stored one. -/
theorem c4_update_content_only (i : String) (hne : i.isEmpty = false)
    (store : Store) (old : Note) (hold : getById store i = some old)
    (x : String) (now : Nat) (hlt : old.updatedAt < now) :
    ∃ upd : Note,
      (updateHandler (updateEvent i (.wellFormed (mkBody none (some x))))
          now store).1 = successResp (.note upd) 200 ∧
      upd.title = old.title ∧ upd.content = x ∧ upd.id = old.id ∧
      upd.createdAt = old.createdAt ∧ old.updatedAt < upd.updatedAt := by
  refine ⟨{ id := old.id, title := old.title, content := x
            createdAt := old.createdAt, updatedAt := now },
          ?_, rfl, rfl, rfl, rfl, hlt⟩
  simp [updateHandler, updateEvent, dbUpdateNote, mkBody, truthy, hne, hold,
    successResp]

/-- Witness for C4 updating the stored note `1` with content `x` at a
later instant. -/
theorem c4_update_content_only_witness :
    ("1" : String).isEmpty = false ∧
    getById [testNote] "1" = some testNote ∧ (0 : Nat) < 5 ∧
    (∃ upd : Note,
      (updateHandler (updateEvent "1" (.wellFormed (mkBody none (some "x")))) 5
          [testNote]).1 = successResp (.note upd) 200 ∧
      upd.title = testNote.title ∧ upd.content = "x" ∧ upd.id = testNote.id ∧
      upd.createdAt = testNote.createdAt ∧
      testNote.updatedAt < upd.updatedAt) :=
  ⟨by decide, rfl, by decide,
   c4_update_content_only "1" (by decide) [testNote] testNote rfl "x" 5
     (by decide)⟩

/-- C5 counterexample: an update request with a well-formed body that
supplies neither title nor content, addressed to an id absent from the
store, is answered 404 (the existence check fires first), not 400 as the
claim states. -/
theorem c5_counterexample_absent_id_gets_404 :
    (updateHandler (updateEvent "zzz" (.wellFormed (mkBody none none))) 5
        []).1 = errorResp "Note not found" 404 ∧
    ((updateHandler (updateEvent "zzz" (.wellFormed (mkBody none none))) 5
        []).1).statusCode ≠ 400 := by
  exact ⟨rfl, by decide⟩

/-- C5 amended: the update path checks existence before field validation:
a well-formed body supplying neither title nor content yields 400 when the
addressed id exists and 404 when it does not. -/
theorem c5_amended_existence_checked_first (i : String)
    (hne : i.isEmpty = false) (b : ReqBody) (ht : truthy b.title = false)
    (hc : b.content = none) (now : Nat) (store : Store) :
    (updateHandler (updateEvent i (.wellFormed b)) now store).1
      = if (getById store i).isSome then
          errorResp "At least one field (title or content) must be provided for update" 400
        else errorResp "Note not found" 404 := by
  rcases h : getById store i with _ | old <;>
    simp [updateHandler, updateEvent, dbUpdateNote, hne, ht, hc, h]

/-- Witness for the amended C5 at an existing id. -/
theorem c5_amended_existence_checked_first_witness :
    ("1" : String).isEmpty = false ∧ truthy (mkBody none none).title = false ∧
    (updateHandler (updateEvent "1" (.wellFormed (mkBody none none))) 5
        [testNote]).1
      = if (getById [testNote] "1").isSome then
          errorResp "At least one field (title or content) must be provided for update" 400
        else errorResp "Note not found" 404 :=
  ⟨by decide, by decide,
   c5_amended_existence_checked_first "1" (by decide) (mkBody none none)
     (by decide) rfl 5 [testNote]⟩

/-- C6 counterexample: an update providing title `""` together with a
content field is accepted and stores the empty-string title: the
validation only rejects when the falsy title comes with an undefined
content. -/
theorem c6_counterexample_empty_title_stored :
    updateHandler (updateEvent "1" (.wellFormed (mkBody (some "") (some "y"))))
        7 [testNote]
      = (successResp (.note { id := "1", title := "", content := "y"
                              createdAt := 0, updatedAt := 7 }) 200,
         [{ id := "1", title := "", content := "y", createdAt := 0
            updatedAt := 7 }]) := by
  rfl

/-- C6 amended: an update that provides title `""` is rejected only when
content is absent as well; when a content field accompanies it, the
handler accepts the request and stores the empty-string title. -/
theorem c6_amended_empty_title_guard (i : String) (hne : i.isEmpty = false)
    (store : Store) (old : Note) (hold : getById store i = some old)
    (c : String) (now : Nat) :
    (updateHandler (updateEvent i (.wellFormed (mkBody (some "") (some c))))
        now store).1
      = successResp (.note { id := old.id, title := "", content := c
                             createdAt := old.createdAt, updatedAt := now })
          200 ∧
    (updateHandler (updateEvent i (.wellFormed (mkBody (some "") none)))
        now store).1
      = errorResp "At least one field (title or content) must be provided for update"
          400 := by
  have h0 : ("" : String).isEmpty = true := by decide
  constructor <;>
    simp [updateHandler, updateEvent, dbUpdateNote, mkBody, truthy, hne, hold,
      h0, successResp]

/-- Witness for the amended C6 at the stored note `1`. -/
theorem c6_amended_empty_title_guard_witness :
    ("1" : String).isEmpty = false ∧ getById [testNote] "1" = some testNote ∧
    ((updateHandler (updateEvent "1" (.wellFormed (mkBody (some "") (some "y"))))
        7 [testNote]).1
      = successResp (.note { id := testNote.id, title := "", content := "y"
                             createdAt := testNote.createdAt, updatedAt := 7 })
          200 ∧
     (updateHandler (updateEvent "1" (.wellFormed (mkBody (some "") none)))
        7 [testNote]).1
      = errorResp "At least one field (title or content) must be provided for update"
          400) :=
  ⟨by decide, rfl,
   c6_amended_empty_title_guard "1" (by decide) [testNote] testNote rfl "y" 7⟩

/-- C7 counterexample: deleting an existing id is answered with status 204
but the body is `JSON.stringify({message: 'Note deleted successfully'})`,
not the empty body the claim states. -/
theorem c7_counterexample_delete_body_not_empty :
    (deleteHandler (deleteEvent "1") [testNote]).1.statusCode = 204 ∧
    (deleteHandler (deleteEvent "1") [testNote]).1.body
      = .msgObj "Note deleted successfully" ∧
    (deleteHandler (deleteEvent "1") [testNote]).1.body ≠ .empty := by
  exact ⟨rfl, rfl, by decide⟩

/-- C7 amended: deleting an existing id responds 204 with the JSON body
`{message: "Note deleted successfully"}` (a non-empty body) and removes
the note from the store. -/
theorem c7_amended_delete_204_with_message (i : String)
    (hne : i.isEmpty = false) (store : Store)
    (hex : (getById store i).isSome = true) :
    deleteHandler (deleteEvent i) store
      = (successResp (.msgObj "Note deleted successfully") 204,
         removeNote store i) := by
  simp [deleteHandler, deleteEvent, dbDeleteNote, hne, hex]

/-- Witness for the amended C7 deleting the stored note `1`. -/
theorem c7_amended_delete_204_with_message_witness :
    ("1" : String).isEmpty = false ∧ (getById [testNote] "1").isSome = true ∧
    deleteHandler (deleteEvent "1") [testNote]
      = (successResp (.msgObj "Note deleted successfully") 204,
         removeNote [testNote] "1") :=
  ⟨by decide, by decide,
   c7_amended_delete_204_with_message "1" (by decide) [testNote] (by decide)⟩

/-- C8 counterexample: the mock fallback does not mirror the remote error
conditions: the remote create rejects the empty title that the mock create
happily stores, and the remote delete rejects an absent id on which the
mock delete succeeds. -/
theorem c8_counterexample_mock_not_substitutable :
    dbCreateNote (mkBody (some "") (some "c")) "f1" 3 []
      = .error "Title is required" ∧
    mockCreateNote [] (some "") (some "c") "9" 3
      = .ok ({ id := "9", title := "", content := "c", createdAt := 3
               updatedAt := 3 },
             [{ id := "9", title := "", content := "c", createdAt := 3
                updatedAt := 3 }]) ∧
    dbDeleteNote "zzz" [] = .error "Note not found" ∧
    mockDeleteNote [] "zzz" = .ok [] := by
  exact ⟨rfl, rfl, rfl, rfl⟩

/-- C8 amended: the mock store mirrors the NotFound conditions of the get
and update operations (absent id fails with `Note not found`), but the
mock create succeeds on every input, with no title validation, and the
mock delete succeeds even on an absent id. -/
theorem c8_amended_partial_mirroring (data : List Note) (i : String)
    (habs : data.find? (fun n => n.id == i) = none)
    (t c : Option String) (nid : String) (now : Nat) (b : ReqBody) :
    mockNoteById data i = .error "Note not found" ∧
    mockUpdateNote data i b now = .error "Note not found" ∧
    (∃ r, mockCreateNote data t c nid now = .ok r) ∧
    (∃ r2, mockDeleteNote data i = .ok r2) := by
  refine ⟨?_, ?_, ⟨_, rfl⟩, ⟨_, rfl⟩⟩ <;>
    simp [mockNoteById, mockUpdateNote, habs]

/-- Witness for the amended C8 at the absent id `zzz` over the seeded
mock data. -/
theorem c8_amended_partial_mirroring_witness :
    (initialMockNotes 0).find? (fun n => n.id == "zzz") = none ∧
    (mockNoteById (initialMockNotes 0) "zzz" = .error "Note not found" ∧
     mockUpdateNote (initialMockNotes 0) "zzz" (mkBody (some "a") none) 4
       = .error "Note not found" ∧
     (∃ r, mockCreateNote (initialMockNotes 0) (some "") none "9" 4 = .ok r) ∧
     (∃ r2, mockDeleteNote (initialMockNotes 0) "zzz" = .ok r2)) :=
  ⟨by decide,
   c8_amended_partial_mirroring (initialMockNotes 0) "zzz" (by decide)
     (some "") none "9" 4 (mkBody (some "a") none)⟩

/-- C9 counterexample: with the seeded mock data and development mode on,
a remote NotFound failure of `getNote("1")` is masked: the adapter returns
the synthetic mock note `1` successfully instead of a failure. -/
theorem c9_counterexample_notFound_masked :
    adapterGetNote (.error "Request failed with status code 404") true
        (initialMockNotes 0) "1"
      = .ok { id := "1", title := "Welcome to Noter"
              content := "This is your first note! You can edit or delete this note, or create new ones."
              createdAt := 0, updatedAt := 0 } := by
  rfl

/-- C9 amended: outside development mode a remote failure propagates
unchanged; in development mode the adapter always substitutes the mock
lookup for a failed remote call, so a remote NotFound is masked by a
synthetic success exactly when the id exists in the mock store, and
surfaces as the mock NotFound otherwise. -/
theorem c9_amended_fallback_masks_by_mock_presence (e : String)
    (mockData : List Note) (i1 : String) (n : Note)
    (h1 : mockData.find? (fun m => m.id == i1) = some n)
    (i2 : String) (h2 : mockData.find? (fun m => m.id == i2) = none) :
    adapterGetNote (.error e) true mockData i1 = .ok n ∧
    adapterGetNote (.error e) true mockData i2 = .error "Note not found" ∧
    adapterGetNote (.error e) false mockData i1 = .error e := by
  refine ⟨?_, ?_, rfl⟩ <;> simp [adapterGetNote, mockNoteById, h1, h2]

/-- Witness for the amended C9 over the seeded mock data. -/
theorem c9_amended_fallback_masks_by_mock_presence_witness :
    (initialMockNotes 0).find? (fun m => m.id == "1")
      = some { id := "1", title := "Welcome to Noter"
               content := "This is your first note! You can edit or delete this note, or create new ones."
               createdAt := 0, updatedAt := 0 } ∧
    (initialMockNotes 0).find? (fun m => m.id == "zzz") = none ∧
    (adapterGetNote (.error "network down") true (initialMockNotes 0) "1"
       = .ok { id := "1", title := "Welcome to Noter"
               content := "This is your first note! You can edit or delete this note, or create new ones."
               createdAt := 0, updatedAt := 0 } ∧
     adapterGetNote (.error "network down") true (initialMockNotes 0) "zzz"
       = .error "Note not found" ∧
     adapterGetNote (.error "network down") false (initialMockNotes 0) "1"
       = .error "network down") :=
  ⟨rfl, by decide,
   c9_amended_fallback_masks_by_mock_presence "network down"
     (initialMockNotes 0) "1" _ rfl "zzz" (by decide)⟩

/-- C10: the create and update handlers read only the title and content
fields of the request body: two well-formed bodies agreeing on title and
content produce identical responses and stores, and on a successful create
the persisted record is exactly the five-field note whose id and both
timestamps are server-generated, whatever else the client sent. -/
theorem c10_extraneous_body_fields_ignored (b1 b2 : ReqBody)
    (ht : b1.title = b2.title) (hc : b1.content = b2.content)
    (i freshId : String) (now : Nat) (store : Store) :
    createHandler (createEvent (some (.wellFormed b1))) freshId now store
      = createHandler (createEvent (some (.wellFormed b2))) freshId now store ∧
    updateHandler (updateEvent i (.wellFormed b1)) now store
      = updateHandler (updateEvent i (.wellFormed b2)) now store ∧
    (∀ t, b1.title = some t → t.isEmpty = false →
      (createHandler (createEvent (some (.wellFormed b1))) freshId now
          store).2
        = putNote store { id := freshId, title := t
                          content := b1.content.getD "", createdAt := now
                          updatedAt := now }) := by
  refine ⟨?_, ?_, ?_⟩
  · simp only [createHandler, createEvent, dbCreateNote, ht, hc]
  · simp only [updateHandler, updateEvent, dbUpdateNote, ht, hc]
  · intro t htt hnz
    simp [createHandler, createEvent, dbCreateNote, truthy, htt, hnz]

/-- Witness for C10: a body smuggling a client id, client timestamps and
an unknown field behaves exactly as the plain title/content body. -/
theorem c10_extraneous_body_fields_ignored_witness :
    (ReqBody.mk (some "T") (some "c") (some "evil") (some 99) (some 99)
        [("hack", "1")]).title = (mkBody (some "T") (some "c")).title ∧
    (ReqBody.mk (some "T") (some "c") (some "evil") (some 99) (some 99)
        [("hack", "1")]).content = (mkBody (some "T") (some "c")).content ∧
    (createHandler (createEvent (some (.wellFormed
          (ReqBody.mk (some "T") (some "c") (some "evil") (some 99) (some 99)
            [("hack", "1")])))) "f1" 7 []
       = createHandler (createEvent (some (.wellFormed
           (mkBody (some "T") (some "c"))))) "f1" 7 [] ∧
     updateHandler (updateEvent "1" (.wellFormed
          (ReqBody.mk (some "T") (some "c") (some "evil") (some 99) (some 99)
            [("hack", "1")]))) 7 []
       = updateHandler (updateEvent "1" (.wellFormed
           (mkBody (some "T") (some "c")))) 7 [] ∧
     (∀ t, (ReqBody.mk (some "T") (some "c") (some "evil") (some 99)
            (some 99) [("hack", "1")]).title = some t → t.isEmpty = false →
       (createHandler (createEvent (some (.wellFormed
            (ReqBody.mk (some "T") (some "c") (some "evil") (some 99)
              (some 99) [("hack", "1")])))) "f1" 7 []).2
         = putNote [] { id := "f1", title := t
                        content := (ReqBody.mk (some "T") (some "c")
                          (some "evil") (some 99) (some 99)
                          [("hack", "1")]).content.getD ""
                        createdAt := 7, updatedAt := 7 })) :=
  ⟨rfl, rfl,
   c10_extraneous_body_fields_ignored
     (ReqBody.mk (some "T") (some "c") (some "evil") (some 99) (some 99)
       [("hack", "1")])
     (mkBody (some "T") (some "c")) rfl rfl "1" "f1" 7 []⟩
